import Mathlib

/-
Verification of the CloudBot event-dispatch engine (src/core/main.py).

This file gives a shallow embedding of the dispatch core: event
construction (Input.__init__), the sieve pipeline (do_sieve / the sieve
loop of dispatch), autohelp short-circuiting, the dual concurrency model
(singlethread Handler workers vs ad hoc threads), parameter resolution
and handler invocation (run), and the routing loop (main).

Python values that can flow into handler parameters are modelled by
PyVal; opaque collaborator objects (the bot, the connection, the event
object itself, a database session) are modelled as tagged opaque values.
Python exceptions raised by plugin or sieve callables are modelled by
the callables returning Except.error.  Side effects (log lines, replies,
thread spawns, queue operations) are modelled as explicit data in the
results of the embedded functions.
-/

namespace CloudBot

/-- A Python value relevant to the dispatch engine: a string, a list of
strings, a regex match object (carrying its matched text), None, an
opaque object (bot / conn / the event itself / a db session / an
inherited object-protocol attribute), or a bound method of the event
(message, reply, action, ctcp, notice, has_permission), carrying the
method's name. -/
inductive PyVal where
  | vStr (s : String)
  | vList (l : List String)
  | vMatch (m : String)
  | vNone
  | vObj (tag : String)
  | vMethod (name : String)
deriving DecidableEq, Repr

/-- Python truthiness for the values above (`not input.text` in dispatch):
empty strings and empty lists are falsy, None is falsy, match objects,
opaque objects and bound methods are truthy. -/
def PyVal.truthy : PyVal → Bool
  | .vStr s => !s.isEmpty
  | .vList l => !l.isEmpty
  | .vMatch _ => true
  | .vNone => false
  | .vObj _ => true
  | .vMethod _ => true

/-- Python str.lower, applied characterwise. -/
def pyLower (s : String) : String := String.mk (s.data.map Char.toLower)

/-- The connection collaborator, as far as the dispatch core reads it:
its server identifier, its own nickname, and the configured command
prefix value (conn.config with a command_prefix entry). -/
structure Conn where
  server : String
  nick : String
  cmdPfx : String
deriving DecidableEq, Repr

/-- One raw parsed line, the tuple unpacked into Input.__init__ :
Input(bot, conn, raw, prefix, command, params, nick, user, host, mask,
paramlist, msg). -/
structure Line where
  raw : String
  pfx : String
  command : String
  params : String
  nick : String
  user : String
  host : String
  mask : String
  paramlist : List String
  msg : String
deriving DecidableEq, Repr

/-- The constructed event object (class Input).  The bot field is opaque
and omitted; conn is kept because dispatch and reply read it.  trigger and
text_unstripped are None / absent until main assigns them on the command
path. -/
structure Input where
  conn : Conn
  raw : String
  pfx : String
  command : String
  params : String
  nick : String
  user : String
  host : String
  mask : String
  paraml : List String
  msg : String
  text : PyVal
  server : String
  lastparam : String
  chan : String
  trigger : Option String
  textUnstripped : Option String
deriving DecidableEq, Repr

/-- Input.__init__ : reads paramlist[-1] (lastparam) and paramlist[0]
(chan), so it fails (IndexError) on an empty parameter list, modelled by
none.  chan is the lowercased first parameter, replaced by the sender
nick when it equals the connection's own nickname lowercased (a PM). -/
def mkInput (conn : Conn) (l : Line) : Option Input :=
  match l.paramlist with
  | [] => none
  | first :: rest =>
    let chan0 := pyLower first
    some
      { conn := conn
        raw := l.raw
        pfx := l.pfx
        command := l.command
        params := l.params
        nick := l.nick
        user := l.user
        host := l.host
        mask := l.mask
        paraml := first :: rest
        msg := l.msg
        text := PyVal.vList (first :: rest)
        server := conn.server
        lastparam := (first :: rest).getLast (List.cons_ne_nil first rest)
        chan := if chan0 = pyLower conn.nick then l.nick else chan0
        trigger := none
        textUnstripped := none }

/-- Input.reply with the default target: sends to self.chan, unprefixed
when the target is the sender's own nick, and otherwise prefixed with
the sender nick in parentheses.  Returns the (target, text) pair passed
to conn.msg. -/
def Input.replyTo (i : Input) (message : String) : String × String :=
  let target := i.chan
  if target = i.nick then (target, message)
  else (target, "(" ++ i.nick ++ ") " ++ message)

/-- The names of the Input class's methods: hasattr resolves them and
getattr yields the bound method, which the resolution loop of run will
happily pass as a handler parameter. -/
def inputMethodNames : List String :=
  ["message", "reply", "action", "ctcp", "notice", "has_permission"]

/-- The attribute protocol every plain Python 3 object carries
(inherited from object, plus the per-instance __dict__ and the class's
__weakref__ slot): hasattr resolves these names too. -/
def pyObjectAttrNames : List String :=
  ["__class__", "__delattr__", "__dict__", "__dir__", "__doc__", "__eq__",
   "__format__", "__ge__", "__getattribute__", "__gt__", "__hash__",
   "__init__", "__init_subclass__", "__le__", "__lt__", "__module__",
   "__ne__", "__new__", "__reduce__", "__reduce_ex__", "__repr__",
   "__setattr__", "__sizeof__", "__str__", "__subclasshook__",
   "__weakref__"]

/-- getattr(input, name) over the attributes the constructed event
actually has: the instance fields assigned in Input.__init__ (plus db
and text_unstripped when assigned), the class's bound methods, and the
object-protocol attributes.  usesDb records whether run has already
assigned input.db (it does so exactly when the plugin declares a db
argument, before the resolution loop).  Attributes that are opaque
objects (bot, conn, the event itself, the db session, the protocol
attributes) are modelled as tagged opaque values; bound methods are
modelled as vMethod values carrying the method name. -/
def Input.getField (i : Input) (usesDb : Bool) (name : String) : Option PyVal :=
  if name = "bot" then some (PyVal.vObj "bot")
  else if name = "conn" then some (PyVal.vObj "conn")
  else if name = "raw" then some (PyVal.vStr i.raw)
  else if name = "prefix" then some (PyVal.vStr i.pfx)
  else if name = "command" then some (PyVal.vStr i.command)
  else if name = "params" then some (PyVal.vStr i.params)
  else if name = "nick" then some (PyVal.vStr i.nick)
  else if name = "user" then some (PyVal.vStr i.user)
  else if name = "host" then some (PyVal.vStr i.host)
  else if name = "mask" then some (PyVal.vStr i.mask)
  else if name = "paraml" then some (PyVal.vList i.paraml)
  else if name = "msg" then some (PyVal.vStr i.msg)
  else if name = "input" then some (PyVal.vObj "input")
  else if name = "text" then some i.text
  else if name = "server" then some (PyVal.vStr i.server)
  else if name = "lastparam" then some (PyVal.vStr i.lastparam)
  else if name = "chan" then some (PyVal.vStr i.chan)
  else if name = "trigger" then
    some (match i.trigger with | some s => PyVal.vStr s | none => PyVal.vNone)
  else if name = "text_unstripped" then i.textUnstripped.map PyVal.vStr
  else if name = "db" then (if usesDb then some (PyVal.vObj "db") else none)
  else if inputMethodNames.contains name then some (PyVal.vMethod name)
  else if pyObjectAttrNames.contains name then some (PyVal.vObj name)
  else none

/-- The fixed alias table _input_name_aliases. -/
def aliasSubst (name : String) : String :=
  if name = "inp" then "text"
  else if name = "match" then "text"
  else if name = "paramlist" then "paraml"
  else name

/-- A registered plugin (Plugin / CommandPlugin descriptor): identity,
whether it is a CommandPlugin, its documentation, its args dict of flags
(autohelp, singlethread), the declared argument names of its function
(inspect.getargspec), and the function itself.  The function may raise
(Except.error) or return a value; None is modelled as Option.none. -/
structure Plugin where
  id : Nat
  moduleTitle : String
  functionName : String
  isCommand : Bool
  doc : Option String
  args : List (String × Bool)
  requiredArgs : List String
  func : List PyVal → Except Unit (Option String)

/-- dict.get(key, default) for the flag dictionaries. -/
def dictGet (d : List (String × Bool)) (k : String) (dflt : Bool) : Bool :=
  match d.find? (fun kv => kv.1 == k) with
  | some kv => kv.2
  | none => dflt

/-- The argument-resolution loop of run: alias-substitute each declared
name in order and look it up on the event; stop at the first name that
is not an attribute, reporting that (substituted) name. -/
def resolveArgs (i : Input) (usesDb : Bool) : List String → Except String (List PyVal)
  | [] => Except.ok []
  | a :: rest =>
    let a2 := aliasSubst a
    match i.getField usesDb a2 with
    | some v =>
      match resolveArgs i usesDb rest with
      | Except.ok vs => Except.ok (v :: vs)
      | Except.error e => Except.error e
    | none => Except.error a2

/-- The observable outcome of one call to run: whether a db session was
opened and whether it was closed, the parameters the plugin function was
invoked with (none when it was never called), the (target, text) reply
sent via input.reply (none when no reply), and the offending argument
name logged when resolution aborted. -/
structure RunResult where
  dbOpened : Bool
  dbClosed : Bool
  called : Option (List PyVal)
  reply : Option (String × String)
  errorLogged : Option String
deriving DecidableEq, Repr

/-- The run function of main.py: compute uses_db from the declared
names, open a db session when needed (before resolution), resolve the
arguments (aborting with a logged error and an early return on the
first unresolvable name - note this return precedes the try/finally,
so the session is not closed on that path), invoke the function inside
try/finally (the finally closes the session on return and on an
exception from the function body), swallow exceptions, and reply with
the stringified result when it is not None. -/
def run (plugin : Plugin) (input : Input) : RunResult :=
  let usesDb := plugin.requiredArgs.contains "db"
  match resolveArgs input usesDb plugin.requiredArgs with
  | Except.error name =>
    { dbOpened := usesDb, dbClosed := false, called := none, reply := none,
      errorLogged := some name }
  | Except.ok params =>
    match plugin.func params with
    | Except.error _ =>
      { dbOpened := usesDb, dbClosed := usesDb, called := some params,
        reply := none, errorLogged := none }
    | Except.ok out =>
      { dbOpened := usesDb, dbClosed := usesDb, called := some params,
        reply := out.map (fun s => input.replyTo s), errorLogged := none }

/-- A registered sieve: identity plus its callable, which may transform
the event, return None to drop it, or raise (Except.error). -/
structure Sieve where
  moduleTitle : String
  functionName : String
  func : Input → Plugin → Except Unit (Option Input)

/-- do_sieve: call the sieve; an exception is caught, logged with sieve
and plugin identity, and turned into None (a drop). -/
def do_sieve (s : Sieve) (i : Input) (p : Plugin) : Option Input :=
  match s.func i p with
  | Except.error _ => none
  | Except.ok r => r

/-- The sieve loop at the top of dispatch: thread the event through each
sieve in order, stopping with none at the first drop. -/
def applySieves : List Sieve → Input → Plugin → Option Input
  | [], i, _ => some i
  | s :: rest, i, p =>
    match do_sieve s i p with
    | none => none
    | some i2 => applySieves rest i2 p

/-- An entry of a Handler's input queue: a queued event or the
StopIteration sentinel put by Handler.stop. -/
inductive QItem where
  | item (i : Input)
  | stopSentinel
deriving DecidableEq, Repr

/-- The bot state dispatch reads and writes: the registered sieve list
and the threads registry mapping plugin identity to that plugin's
Handler queue contents (queue.Queue is FIFO; put appends). -/
structure Bot where
  sieves : List Sieve
  threads : List (Nat × List QItem)

/-- plugin in bot.threads. -/
def threadsHas (ts : List (Nat × List QItem)) (pid : Nat) : Bool :=
  ts.any (fun kv => kv.1 == pid)

/-- bot.threads[plugin].put(input): append the event to that plugin's
FIFO queue. -/
def threadsPut (ts : List (Nat × List QItem)) (pid : Nat) (i : Input) :
    List (Nat × List QItem) :=
  ts.map (fun kv => if kv.1 == pid then (kv.1, kv.2 ++ [QItem.item i]) else kv)

/-- What one call to dispatch did after the sieve pipeline: dropped by a
sieve (no notice, no invocation, no thread touched); short-circuited to
an autohelp notice (target, text) with no invocation; enqueued the event
on an existing Handler; created a brand-new Handler (note: carrying no
event); or spawned an ad hoc thread running run on the event. -/
inductive DispatchOutcome where
  | dropped
  | autohelp (target : String) (message : String)
  | enqueued (i : Input)
  | workerCreated
  | spawned (i : Input)
deriving DecidableEq, Repr

/-- The dispatch function of main.py, returning its outcome and the
updated bot state.  The sieve loop runs first; then the autohelp
short-circuit (CommandPlugin, autohelp flag defaulting to true, falsy
text, non-None doc) sends input.notice (default target: the sender's
nick) with the configured command prefix concatenated with the doc and
returns; then the singlethread branch either puts the event on the
existing Handler's queue or creates a new Handler with an empty queue
(the event is not enqueued in that branch, mirroring the source); the
default branch starts a new thread running run. -/
def dispatch (bot : Bot) (input0 : Input) (plugin : Plugin) :
    DispatchOutcome × Bot :=
  match applySieves bot.sieves input0 plugin with
  | none => (DispatchOutcome.dropped, bot)
  | some input =>
    if plugin.isCommand && dictGet plugin.args "autohelp" true
        && !input.text.truthy && plugin.doc.isSome then
      (DispatchOutcome.autohelp input.nick (input.conn.cmdPfx ++ plugin.doc.getD ""), bot)
    else if dictGet plugin.args "singlethread" false then
      if threadsHas bot.threads plugin.id then
        (DispatchOutcome.enqueued input,
          { bot with threads := threadsPut bot.threads plugin.id input })
      else
        (DispatchOutcome.workerCreated,
          { bot with threads := bot.threads ++ [(plugin.id, [])] })
    else
      (DispatchOutcome.spawned input, bot)

/-- The Handler.start worker loop, run against a queue state, assuming
the bot keeps running: take items one at a time in FIFO order, stop at
the StopIteration sentinel, and hand each event to run. -/
def workerProcess : List QItem → List Input
  | [] => []
  | QItem.stopSentinel :: _ => []
  | QItem.item i :: rest => i :: workerProcess rest

/-- The sequence of run results the worker produces for a queue state:
run applied to each dequeued event, in dequeue order. -/
def workerRun (p : Plugin) (q : List QItem) : List RunResult :=
  (workerProcess q).map (run p)

/-- A compiled regular expression, abstracted by its search method
applied to a string: none when there is no match anywhere in the
string, some match result otherwise. -/
structure Regex where
  search : String → Option String

/-- The registration tables main reads from the plugin manager. -/
structure PluginTables where
  events : List (String × List Plugin)
  catchAllEvents : List Plugin
  commands : List (String × Plugin)
  regexPlugins : List (Regex × Plugin)

/-- Association-table lookup (the Python dict lookups of main). -/
def tableLookup {α : Type} (t : List (String × α)) (k : String) : Option α :=
  (t.find? (fun kv => kv.1 == k)).map (fun kv => kv.2)

/-- The EVENTS section of main: handlers registered for the exact
command verb, then every catch-all handler, each dispatched with a
fresh Input built from the same line (value-equal to inp since
construction is deterministic). -/
def eventSection (tables : PluginTables) (inp : Input) : List (Plugin × Input) :=
  (match tableLookup tables.events inp.command with
   | some plugs => plugs.map (fun p => (p, inp))
   | none => []) ++ tables.catchAllEvents.map (fun p => (p, inp))

/-- The COMMANDS section of main, with the re.match of the built
command_re abstracted as cm isPM lastparam returning the two captured
groups (command token, remaining text) on a match.  On a hit the fresh
event gets trigger, text_unstripped, and the stripped text. -/
def commandSection (tables : PluginTables)
    (cm : Bool → String → Option (String × String)) (inp : Input) :
    List (Plugin × Input) :=
  match cm (inp.chan == inp.nick) inp.lastparam with
  | some g =>
    let cmd := pyLower g.1
    match tableLookup tables.commands cmd with
    | some plugin =>
      let inp2 : Input :=
        { inp with trigger := some cmd, textUnstripped := some g.2,
                   text := PyVal.vStr g.2.trim }
      [(plugin, inp2)]
    | none => []
  | none => []

/-- The REGEXES loop of main: test every registered pattern with search
against the trailing text; each match gets its own fresh event whose
text is the match result; non-matching patterns dispatch nothing. -/
def regexLoop (fresh : Input) : List (Regex × Plugin) → List (Plugin × Input)
  | [] => []
  | (r, p) :: rest =>
    match r.search fresh.lastparam with
    | some m => (p, { fresh with text := PyVal.vMatch m }) :: regexLoop fresh rest
    | none => regexLoop fresh rest

/-- The main routing function, recorded as the ordered list of
(plugin, event) pairs it passes to dispatch.  Event construction runs
first; when it fails (empty parameter list) no dispatch happens at all
(none).  The command and regex sections run only for PRIVMSG lines. -/
def mainDispatches (tables : PluginTables)
    (cm : Bool → String → Option (String × String)) (conn : Conn) (l : Line) :
    Option (List (Plugin × Input)) :=
  match mkInput conn l with
  | none => none
  | some inp =>
    if inp.command = "PRIVMSG" then
      some ((eventSection tables inp ++ commandSection tables cm inp)
        ++ regexLoop inp tables.regexPlugins)
    else
      some (eventSection tables inp)

/-! Concrete sample data used by closed theorems and witnesses. -/

/-- A sample connection: bot nick bot, command prefix ".". -/
def sampleConn : Conn :=
  { server := "irc.example.net", nick := "bot", cmdPfx := "." }

/-- A sample PRIVMSG line from alice to the channel with trailing text
hi. -/
def sampleLine : Line :=
  { raw := ":alice!u@h PRIVMSG #chan :hi", pfx := "alice!u@h",
    command := "PRIVMSG", params := "#chan :hi", nick := "alice",
    user := "u", host := "h", mask := "alice!u@h",
    paramlist := ["#chan", "hi"], msg := "hi" }

/-- The event mkInput builds from sampleConn and sampleLine. -/
def sampleInput : Input :=
  { conn := sampleConn, raw := ":alice!u@h PRIVMSG #chan :hi",
    pfx := "alice!u@h", command := "PRIVMSG", params := "#chan :hi",
    nick := "alice", user := "u", host := "h", mask := "alice!u@h",
    paraml := ["#chan", "hi"], msg := "hi",
    text := PyVal.vList ["#chan", "hi"], server := "irc.example.net",
    lastparam := "hi", chan := "#chan", trigger := none,
    textUnstripped := none }

/-- A bot state with no sieves and no Handler threads. -/
def bot0 : Bot := { sieves := [], threads := [] }

/-- The bot state after a Handler (with an empty queue) exists for
plugin id 1. -/
def bot1 : Bot := { sieves := [], threads := [(1, [])] }

/-- A singlethread (ordered-mode) plugin. -/
def orderedPlugin : Plugin :=
  { id := 1, moduleTitle := "om", functionName := "f", isCommand := false,
    doc := none, args := [("singlethread", true)], requiredArgs := [],
    func := fun _ => Except.ok none }

theorem mkInput_sample : mkInput sampleConn sampleLine = some sampleInput := by
  decide

/-- Claim C1 (code bug): on the very first dispatch of an event to a
singlethread handler, dispatch creates the Handler but never enqueues
the triggering event - the new worker's queue is empty and the first
event is silently dropped - while a second dispatch (worker now
existing) does enqueue its event. -/
theorem first_ordered_dispatch_drops_event :
    dispatch bot0 sampleInput orderedPlugin = (DispatchOutcome.workerCreated, bot1) ∧
    dispatch bot1 sampleInput orderedPlugin
      = (DispatchOutcome.enqueued sampleInput,
         { sieves := [], threads := [(1, [QItem.item sampleInput])] }) :=
  ⟨rfl, rfl⟩

/-- A plugin that declares the db argument and then an unresolvable
name, so run opens a session and aborts during resolution. -/
def dbLeakPlugin : Plugin :=
  { id := 2, moduleTitle := "dbmod", functionName := "g", isCommand := false,
    doc := none, args := [], requiredArgs := ["db", "nosuchfield"],
    func := fun _ => Except.ok none }

/-- A plugin that declares the db argument and whose body raises. -/
def dbRaisePlugin : Plugin :=
  { id := 3, moduleTitle := "dbmod2", functionName := "g2", isCommand := false,
    doc := none, args := [], requiredArgs := ["db"],
    func := fun _ => Except.error () }

/-- Claim C2 (code bug): when a handler declares db together with an
unresolvable name, run opens the store session and then returns from
the resolution-error path without closing it (the early return precedes
the try/finally), so the session leaks; by contrast, on the
handler-exception path the finally does close the session. -/
theorem run_db_session_leak :
    run dbLeakPlugin sampleInput
      = { dbOpened := true, dbClosed := false, called := none, reply := none,
          errorLogged := some "nosuchfield" } ∧
    run dbRaisePlugin sampleInput
      = { dbOpened := true, dbClosed := true, called := some [PyVal.vObj "db"],
          reply := none, errorLogged := none } :=
  ⟨rfl, rfl⟩

/-- Claim C3: a sieve that raises is a drop (do_sieve returns none and
the exception never propagates); a drop at a sieve stops the pipeline
there, whatever sieves follow; and when the pipeline drops, dispatch
returns immediately with the dropped outcome and an unchanged bot - no
autohelp notice, no enqueue, no spawned invocation, hence no reply. -/
theorem sieve_drop_fail_closed :
    (∀ (s : Sieve) (i : Input) (p : Plugin),
        s.func i p = Except.error () → do_sieve s i p = none) ∧
    (∀ (s : Sieve) (rest : List Sieve) (i : Input) (p : Plugin),
        do_sieve s i p = none → applySieves (s :: rest) i p = none) ∧
    (∀ (bot : Bot) (i : Input) (p : Plugin),
        applySieves bot.sieves i p = none →
        dispatch bot i p = (DispatchOutcome.dropped, bot)) := by
  refine ⟨?_, ?_, ?_⟩
  · intro s i p h
    simp [do_sieve, h]
  · intro s rest i p h
    simp [applySieves, h]
  · intro bot i p h
    simp [dispatch, h]

/-- A sieve whose callable raises. -/
def raisingSieve : Sieve :=
  { moduleTitle := "sv", functionName := "sieve_fn",
    func := fun _ _ => Except.error () }

/-- A second sieve, which would pass the event through unchanged. -/
def passSieve : Sieve :=
  { moduleTitle := "sv2", functionName := "sieve_fn2",
    func := fun i _ => Except.ok (some i) }

/-- A bot whose sieve list starts with the raising sieve. -/
def botRaise : Bot := { sieves := [raisingSieve, passSieve], threads := [] }

/-- Witness for C3 at concrete inputs: the raising sieve drops, the
pipeline stops at it, and dispatch is dropped with the bot unchanged. -/
theorem sieve_drop_fail_closed_witness :
    do_sieve raisingSieve sampleInput orderedPlugin = none ∧
    applySieves [raisingSieve, passSieve] sampleInput orderedPlugin = none ∧
    dispatch botRaise sampleInput orderedPlugin = (DispatchOutcome.dropped, botRaise) :=
  ⟨sieve_drop_fail_closed.1 raisingSieve sampleInput orderedPlugin rfl,
   sieve_drop_fail_closed.2.1 raisingSieve [passSieve] sampleInput orderedPlugin rfl,
   sieve_drop_fail_closed.2.2 botRaise sampleInput orderedPlugin rfl⟩

/-- Claim C4: a sequence of put calls builds the queue in enqueue
order, the worker loop dequeues exactly that sequence in FIFO order,
and it hands each event, one at a time and in that order, to run for
this handler's plugin. -/
theorem ordered_worker_fifo (p : Plugin) (events : List Input) :
    List.foldl (fun q i => q ++ [QItem.item i]) [] events = events.map QItem.item ∧
    workerProcess (events.map QItem.item) = events ∧
    workerRun p (events.map QItem.item) = events.map (run p) := by
  have hfold : ∀ (evs : List Input) (q : List QItem),
      List.foldl (fun q i => q ++ [QItem.item i]) q evs = q ++ evs.map QItem.item := by
    intro evs
    induction evs with
    | nil => intro q; simp
    | cons e rest ih =>
      intro q
      simp only [List.foldl_cons, List.map_cons, ih]
      simp
  have hproc : workerProcess (events.map QItem.item) = events := by
    induction events with
    | nil => rfl
    | cons e rest ih => simp [workerProcess, ih]
  refine ⟨by simpa using hfold events [], hproc, ?_⟩
  simp [workerRun, hproc]

/-- Claim C5: given that the sieve pipeline passes the event through
(as i), dispatch short-circuits to the autohelp notice - sent to the
sender's nick, with the configured command prefix concatenated with the
documentation - exactly when the handler is a command handler, its
autohelp flag (defaulting to true) is set, the event's text is falsy
(the trimmed text is empty), and the documentation is non-None; and
when it fires, the bot state is untouched (no worker, no invocation). -/
theorem autohelp_iff_conditions (bot : Bot) (input0 : Input) (plugin : Plugin)
    (i : Input) (h : applySieves bot.sieves input0 plugin = some i) :
    ((dispatch bot input0 plugin).1
        = DispatchOutcome.autohelp i.nick (i.conn.cmdPfx ++ plugin.doc.getD "") ↔
      (plugin.isCommand = true ∧ dictGet plugin.args "autohelp" true = true ∧
        i.text.truthy = false ∧ plugin.doc.isSome = true)) ∧
    ((plugin.isCommand = true ∧ dictGet plugin.args "autohelp" true = true ∧
        i.text.truthy = false ∧ plugin.doc.isSome = true) →
      (dispatch bot input0 plugin).2 = bot) := by
  have hcond : (plugin.isCommand && dictGet plugin.args "autohelp" true
        && !i.text.truthy && plugin.doc.isSome) = true ↔
      (plugin.isCommand = true ∧ dictGet plugin.args "autohelp" true = true ∧
        i.text.truthy = false ∧ plugin.doc.isSome = true) := by
    simp [Bool.and_eq_true, Bool.not_eq_true', and_assoc]
  constructor
  · constructor
    · intro ht
      by_cases hb : (plugin.isCommand && dictGet plugin.args "autohelp" true
          && !i.text.truthy && plugin.doc.isSome) = true
      · exact hcond.mp hb
      · exfalso
        simp only [dispatch, h] at ht
        rw [if_neg hb] at ht
        cases hsing : dictGet plugin.args "singlethread" false with
        | false => simp [hsing] at ht
        | true =>
          cases hth : threadsHas bot.threads plugin.id with
          | false => simp [hsing, hth] at ht
          | true => simp [hsing, hth] at ht
    · intro hc
      have hb := hcond.mpr hc
      simp only [dispatch, h]
      rw [if_pos hb]
  · intro hc
    have hb := hcond.mpr hc
    simp only [dispatch, h]
    rw [if_pos hb]

/-- A command plugin with documentation and no explicit autohelp flag
(so the default true applies). -/
def cmdHelpPlugin : Plugin :=
  { id := 4, moduleTitle := "help", functionName := "help", isCommand := true,
    doc := some "help <topic> shows help", args := [], requiredArgs := ["text"],
    func := fun _ => Except.ok none }

/-- sampleInput with the empty stripped command text (the empty-text
command path of main). -/
def emptyTextInput : Input := { sampleInput with text := PyVal.vStr "" }

/-- Witness for C5 at concrete inputs: with no sieves, a documented
command plugin and an empty-text event, autohelp fires with the
prefixed documentation addressed to the sender, and the bot is
unchanged. -/
theorem autohelp_iff_conditions_witness :
    (dispatch bot0 emptyTextInput cmdHelpPlugin).1
      = DispatchOutcome.autohelp emptyTextInput.nick
          (emptyTextInput.conn.cmdPfx ++ cmdHelpPlugin.doc.getD "") ∧
    (dispatch bot0 emptyTextInput cmdHelpPlugin).2 = bot0 := by
  have h := autohelp_iff_conditions bot0 emptyTextInput cmdHelpPlugin
    emptyTextInput rfl
  exact ⟨h.1.mpr ⟨rfl, rfl, by decide, rfl⟩, h.2 ⟨rfl, rfl, by decide, rfl⟩⟩

/-- If some declared name in the list is (after alias substitution) not
an attribute of the event, the resolution loop ends in an error. -/
theorem resolveArgs_error_of_bad (i : Input) (u : Bool) :
    ∀ (args : List String),
      (∃ a, a ∈ args ∧ i.getField u (aliasSubst a) = none) →
      ∃ e, resolveArgs i u args = Except.error e := by
  intro args
  induction args with
  | nil =>
    rintro ⟨a, ha, -⟩
    simp at ha
  | cons b rest ih =>
    rintro ⟨a, ha, hno⟩
    rcases List.mem_cons.mp ha with h1 | h2
    · subst h1
      exact ⟨aliasSubst a, by simp [resolveArgs, hno]⟩
    · cases hgf : i.getField u (aliasSubst b) with
      | none => exact ⟨aliasSubst b, by simp [resolveArgs, hgf]⟩
      | some v =>
        obtain ⟨e, he⟩ := ih ⟨a, h2, hno⟩
        exact ⟨e, by simp [resolveArgs, hgf, he]⟩

/-- A plugin whose declared input name is notice: not a data field of
the event, but one of its bound methods. -/
def noticeArgPlugin : Plugin :=
  { id := 10, moduleTitle := "nm", functionName := "nm", isCommand := false,
    doc := none, args := [], requiredArgs := ["notice"],
    func := fun _ => Except.ok none }

/-- Claim C6 counterexample: notice is not a field of the constructed
event (it is a bound method of Input), yet run does not abort for a
handler declaring it - hasattr resolves it, the bound method is passed
as the parameter, and the handler is invoked with no error logged.  So
a declared name that is not a field does not imply an abort. -/
theorem run_resolves_method_attribute :
    (run noticeArgPlugin sampleInput).called = some [PyVal.vMethod "notice"] ∧
    (run noticeArgPlugin sampleInput).errorLogged = none :=
  ⟨rfl, rfl⟩

/-- Claim C6 as amended: when a handler declares an input name that,
after alias substitution, is not an attribute of the constructed event -
neither one of its data fields, nor one of its bound methods, nor an
inherited object-protocol attribute - run aborts before invocation: an
error naming the offending argument is logged, the handler function is
never called (so no parameters are passed), and no reply is sent. -/
theorem bad_arg_aborts_run (plugin : Plugin) (input : Input)
    (h : ∃ a, a ∈ plugin.requiredArgs ∧
        input.getField (plugin.requiredArgs.contains "db") (aliasSubst a) = none) :
    (run plugin input).called = none ∧ (run plugin input).reply = none ∧
    (run plugin input).errorLogged ≠ none := by
  obtain ⟨e, he⟩ :=
    resolveArgs_error_of_bad input (plugin.requiredArgs.contains "db")
      plugin.requiredArgs h
  simp only [run]
  rw [he]
  simp

/-- A plugin declaring an argument name that resolves to nothing. -/
def badArgPlugin : Plugin :=
  { id := 5, moduleTitle := "badmod", functionName := "h", isCommand := false,
    doc := none, args := [], requiredArgs := ["frobnicate"],
    func := fun _ => Except.ok none }

/-- Witness for C6 at concrete inputs: a plugin asking for frobnicate
is never called, sends no reply, and an error is logged. -/
theorem bad_arg_aborts_run_witness :
    (run badArgPlugin sampleInput).called = none ∧
    (run badArgPlugin sampleInput).reply = none ∧
    (run badArgPlugin sampleInput).errorLogged ≠ none :=
  bad_arg_aborts_run badArgPlugin sampleInput
    ⟨"frobnicate", by simp [badArgPlugin], by decide⟩

/-- Claim C7: with a non-empty parameter list, construction succeeds
and the resolved target is deterministic - the sender's nick when the
lowercased first parameter equals the connection's own lowercased
nickname (a private message), and the lowercased first parameter
otherwise. -/
theorem chan_resolution (conn : Conn) (l : Line) (first : String)
    (rest : List String) (h : l.paramlist = first :: rest) :
    ∃ i, mkInput conn l = some i ∧
      i.chan = if pyLower first = pyLower conn.nick then l.nick
               else pyLower first := by
  simp only [mkInput, h]
  exact ⟨_, rfl, rfl⟩

/-- The line of a private message from carol addressed to the bot's own
nick (first parameter Bot, matching the connection nick case-insensitively). -/
def pmLine : Line :=
  { raw := ":carol!u@h PRIVMSG Bot :hey", pfx := "carol!u@h",
    command := "PRIVMSG", params := "Bot :hey", nick := "carol",
    user := "u", host := "h", mask := "carol!u@h",
    paramlist := ["Bot", "hey"], msg := "hey" }

/-- Witness for C7 at concrete inputs: first parameter Bot against own
nick bot resolves (case-insensitively) to the sender carol. -/
theorem chan_resolution_witness :
    ∃ i, mkInput sampleConn pmLine = some i ∧
      i.chan = if pyLower "Bot" = pyLower sampleConn.nick then pmLine.nick
               else pyLower "Bot" :=
  chan_resolution sampleConn pmLine "Bot" ["hey"] rfl

/-- A plugin with no declared arguments whose function returns the
empty string (a non-None but empty result). -/
def emptyOutPlugin : Plugin :=
  { id := 6, moduleTitle := "eo", functionName := "eo", isCommand := false,
    doc := none, args := [], requiredArgs := [],
    func := fun _ => Except.ok (some "") }

/-- Claim C8 counterexample: a handler returning the empty string - an
empty result - still causes a reply to be sent (the code tests out is
not None, not emptiness), so a reply is not sent only when the result
is non-empty. -/
theorem reply_sent_for_empty_result :
    emptyOutPlugin.func [] = Except.ok (some "") ∧
    (run emptyOutPlugin sampleInput).reply = some ("#chan", "(alice) ") :=
  ⟨rfl, rfl⟩

/-- Claim C8 as amended: for an invocation that completes without
raising, a reply is sent iff the returned result is not None (an empty
string still yields a reply), and the reply goes to the event's
resolved target, prefixed with the sender nick in parentheses when the
target differs from the sender's nick and unprefixed otherwise. -/
theorem reply_iff_result_not_none (plugin : Plugin) (input : Input)
    (ps : List PyVal) (out : Option String)
    (h1 : resolveArgs input (plugin.requiredArgs.contains "db")
        plugin.requiredArgs = Except.ok ps)
    (h2 : plugin.func ps = Except.ok out) :
    ((run plugin input).reply ≠ none ↔ out ≠ none) ∧
    (run plugin input).reply = out.map (fun s =>
      (input.chan, if input.chan = input.nick then s
                   else "(" ++ input.nick ++ ") " ++ s)) := by
  have hr : (run plugin input).reply = out.map (fun s => input.replyTo s) := by
    simp only [run]
    rw [h1]
    dsimp only
    rw [h2]
  have hfmt : (run plugin input).reply = out.map (fun s =>
      (input.chan, if input.chan = input.nick then s
                   else "(" ++ input.nick ++ ") " ++ s)) := by
    rw [hr]
    cases out with
    | none => rfl
    | some s =>
      by_cases hcn : input.chan = input.nick <;>
        simp [Input.replyTo, hcn]
  refine ⟨?_, hfmt⟩
  rw [hfmt]
  cases out <;> simp

/-- A plugin with no declared arguments returning the string hey. -/
def heyPlugin : Plugin :=
  { id := 7, moduleTitle := "hey", functionName := "hey", isCommand := false,
    doc := none, args := [], requiredArgs := [],
    func := fun _ => Except.ok (some "hey") }

/-- Witness for the amended C8 at concrete inputs: the hey result is
replied to the channel target, prefixed with the sender nick. -/
theorem reply_iff_result_not_none_witness :
    ((run heyPlugin sampleInput).reply ≠ none ↔ (some "hey" : Option String) ≠ none) ∧
    (run heyPlugin sampleInput).reply = (some "hey" : Option String).map (fun s =>
      (sampleInput.chan, if sampleInput.chan = sampleInput.nick then s
                         else "(" ++ sampleInput.nick ++ ") " ++ s)) :=
  reply_iff_result_not_none heyPlugin sampleInput [] (some "hey") rfl rfl

/-- mkInput propagates the line's command verb unchanged. -/
theorem mkInput_command (conn : Conn) (l : Line) (i : Input)
    (h : mkInput conn l = some i) : i.command = l.command := by
  unfold mkInput at h
  cases hpl : l.paramlist with
  | nil => rw [hpl] at h; simp at h
  | cons f r =>
    rw [hpl] at h
    simp only [Option.some.injEq] at h
    rw [← h]

/-- Claim C9: for a PRIVMSG line, main runs the regex loop last, and
that loop dispatches exactly one fresh event - whose text is the match
result - for every registered pattern whose search matches the trailing
text; matching is not exclusive, so every matching (pattern, handler)
pair in the list yields its own dispatch. -/
theorem pattern_dispatch_independent (tables : PluginTables)
    (cm : Bool → String → Option (String × String)) (conn : Conn) (l : Line)
    (inp : Input) (h1 : mkInput conn l = some inp)
    (h2 : l.command = "PRIVMSG") :
    mainDispatches tables cm conn l
      = some ((eventSection tables inp ++ commandSection tables cm inp)
          ++ regexLoop inp tables.regexPlugins) ∧
    regexLoop inp tables.regexPlugins = tables.regexPlugins.filterMap
      (fun rp => (rp.1.search inp.lastparam).map
        (fun m => (rp.2, { inp with text := PyVal.vMatch m }))) ∧
    (∀ r p m, (r, p) ∈ tables.regexPlugins → r.search inp.lastparam = some m →
      (p, { inp with text := PyVal.vMatch m }) ∈ regexLoop inp tables.regexPlugins) := by
  have hcmd : inp.command = "PRIVMSG" := (mkInput_command conn l inp h1).trans h2
  have hloop : ∀ plugs : List (Regex × Plugin),
      regexLoop inp plugs = plugs.filterMap
        (fun rp => (rp.1.search inp.lastparam).map
          (fun m => (rp.2, { inp with text := PyVal.vMatch m }))) := by
    intro plugs
    induction plugs with
    | nil => rfl
    | cons rp rest ih =>
      obtain ⟨r, p⟩ := rp
      cases hs : r.search inp.lastparam with
      | none => simp [regexLoop, hs, ih]
      | some m => simp [regexLoop, hs, ih]
  refine ⟨?_, hloop tables.regexPlugins, ?_⟩
  · simp only [mainDispatches]
    rw [h1]
    dsimp only
    rw [if_pos hcmd]
  · intro r p m hmem hs
    rw [hloop tables.regexPlugins]
    exact List.mem_filterMap.mpr ⟨(r, p), hmem, by simp [hs]⟩

/-- A pattern handler plugin (first of two). -/
def patPluginA : Plugin :=
  { id := 8, moduleTitle := "pa", functionName := "pa", isCommand := false,
    doc := none, args := [], requiredArgs := [],
    func := fun _ => Except.ok none }

/-- A pattern handler plugin (second of two). -/
def patPluginB : Plugin :=
  { id := 9, moduleTitle := "pb", functionName := "pb", isCommand := false,
    doc := none, args := [], requiredArgs := [],
    func := fun _ => Except.ok none }

/-- A pattern matching the trailing text hi with match result matchA. -/
def patRegexA : Regex :=
  { search := fun s => if s == "hi" then some "matchA" else none }

/-- A second pattern also matching hi, with match result matchB. -/
def patRegexB : Regex :=
  { search := fun s => if s == "hi" then some "matchB" else none }

/-- Tables registering only the two overlapping pattern handlers. -/
def patTables : PluginTables :=
  { events := [], catchAllEvents := [], commands := [],
    regexPlugins := [(patRegexA, patPluginA), (patRegexB, patPluginB)] }

/-- A command matcher that never matches. -/
def noCmdMatch : Bool → String → Option (String × String) := fun _ _ => none

/-- Witness for C9 at concrete inputs: two patterns both matching the
same trailing text each receive their own dispatch, with their own
match result as the event text. -/
theorem pattern_dispatch_independent_witness :
    (patPluginA, { sampleInput with text := PyVal.vMatch "matchA" })
        ∈ regexLoop sampleInput patTables.regexPlugins ∧
    (patPluginB, { sampleInput with text := PyVal.vMatch "matchB" })
        ∈ regexLoop sampleInput patTables.regexPlugins := by
  have h := pattern_dispatch_independent patTables noCmdMatch sampleConn
    sampleLine sampleInput mkInput_sample rfl
  exact ⟨h.2.2 patRegexA patPluginA "matchA" (List.mem_cons_self _ _) rfl,
         h.2.2 patRegexB patPluginB "matchB"
           (List.mem_cons_of_mem _ (List.mem_cons_self _ _)) rfl⟩

/-- Claim C10: a line whose parsed parameter list is empty makes event
construction fail (Input.__init__ indexes paramlist[-1] and
paramlist[0]), and since main constructs the event before any routing,
no dispatch of any kind occurs for such a line. -/
theorem empty_paramlist_no_dispatch (tables : PluginTables)
    (cm : Bool → String → Option (String × String)) (conn : Conn) (l : Line)
    (h : l.paramlist = []) :
    mkInput conn l = none ∧ mainDispatches tables cm conn l = none := by
  have hm : mkInput conn l = none := by simp only [mkInput, h]
  refine ⟨hm, ?_⟩
  simp only [mainDispatches]
  rw [hm]

/-- A line with an empty parameter list. -/
def emptyParamLine : Line :=
  { raw := "PING", pfx := "", command := "PING", params := "", nick := "",
    user := "", host := "", mask := "", paramlist := [], msg := "" }

/-- Witness for C10 at concrete inputs: the empty-parameter line
constructs no event and produces no dispatches. -/
theorem empty_paramlist_no_dispatch_witness :
    mkInput sampleConn emptyParamLine = none ∧
    mainDispatches patTables noCmdMatch sampleConn emptyParamLine = none :=
  empty_paramlist_no_dispatch patTables noCmdMatch sampleConn emptyParamLine rfl

end CloudBot
